import Mathlib

/-!
Verification of the princechess-server matchmaking and room subsystem.

Each definition below is a shallow embedding of a function or event handler
of the Go source (src/main.go, src/room.go, src/player.go, src/livedata.go).
Go durations and timestamps are modelled as `Int` nanosecond counts, with the
zero `time.Time` value modelled as `0`; channels with non-blocking pushes are
modelled by explicit queue lengths against their capacity; the outcome of a
blocking `select` is passed in as an explicit parameter.
-/

/-- The default display name used when the session has no username
(src/main.go, `DEFAULT_USERNAME`). -/
def DEFAULT_USERNAME : String := "mistery"

/-! ## Chat delivery in the player outbound task (src/player.go, writePump) -/

/-- A chat message as delivered to a player's outbound task: the sanitized
text, the `from` field (`Username`) and the sender's user id
(src/player.go, `message`, restricted to the fields writePump inspects). -/
structure ChatMsg where
  text : String
  username : String
  userId : String
deriving DecidableEq, Repr

/-- The `from`-field rewrite writePump applies to each chat message before
writing it: if the sender id equals the receiving player's own user id and
the sender's username is the default username, the `from` field becomes
"you"; otherwise the message is unchanged (src/player.go lines 207-209 and
228-230). -/
def rewriteFrom (pUserId : String) (msg : ChatMsg) : ChatMsg :=
  if msg.userId = pUserId ∧ msg.username = DEFAULT_USERNAME then
    { msg with username := "you" }
  else
    msg

/-- One chat tick of writePump: the head message received from the player's
chat queue plus the burst of queued messages are each given the same
`from`-field rewrite and written as one batch (src/player.go lines 199-243). -/
def writePumpChatBatch (pUserId : String) (head : ChatMsg) (queued : List ChatMsg) :
    List ChatMsg :=
  (head :: queued).map (rewriteFrom pUserId)

/-! ## Invite join and host wait (src/main.go, handleJoin / handleWait) -/

/-- A matchmaking user identity (src/main.go, `user`). -/
structure User where
  id : String
  username : String
deriving DecidableEq, Repr

/-- A pairing between two users (src/main.go, `match`). -/
structure Match where
  gameId : String
  white : User
  black : User
deriving DecidableEq, Repr

/-- The zero value of `user` in Go. -/
def emptyUser : User := { id := "", username := "" }

/-- The zero value of `match` in Go: the empty sentinel pairing. -/
def emptyMatch : Match := { gameId := "", white := emptyUser, black := emptyUser }

/-- The response payload written to a joiner or host: assigned color, room id
and opponent display name. -/
structure JoinResp where
  color : String
  roomId : String
  opp : String
deriving DecidableEq, Repr

/-- Result of the join handler once the invite room is found: either the
cancellation push (self join) or a completed join with the match pushed
through the invite's pairing channel and the response to the joiner. -/
inductive JoinResult
  | cancelled (sent : Match)
  | joined (sent : Match) (resp : JoinResp)
deriving DecidableEq, Repr

/-- The core of handleJoin after the invite room lookup succeeded
(src/main.go lines 564-606): if the joiner is the invite's host, an empty
sentinel match is pushed and the handler returns without producing a match;
otherwise a fresh game id is allocated, the joiner is randomly given white
(when `coin % 2 = 0`, from `rand.Intn(2) % 2 == 0`) or black, the match is
pushed, and the joiner is told its color, the room id and the host's name. -/
def handleJoinFound (uid username : String) (host : User) (freshId : String)
    (coin : Nat) : JoinResult :=
  if host.id = uid then
    JoinResult.cancelled emptyMatch
  else
    let joiner : User := { id := uid, username := username }
    if coin % 2 = 0 then
      JoinResult.joined { gameId := freshId, white := joiner, black := emptyUser }
        { color := "white", roomId := freshId, opp := host.username }
    else
      JoinResult.joined { gameId := freshId, white := emptyUser, black := joiner }
        { color := "black", roomId := freshId, opp := host.username }

/-- Result of the host's wait once a value arrives on the invite's pairing
channel: either the sentinel was observed (close message, no match made) or
the host fills the remaining color slot and registers the match. -/
inductive WaitResult
  | cancelledClose (closeText : String)
  | matched (resp : JoinResp) (made : Match)
deriving DecidableEq, Repr

/-- The receive arm of handleWait (src/main.go lines 462-503): a match with
an empty game id means the invite was cancelled ("You can\x27t play against
yourself" close); otherwise the host takes whichever color slot is still
empty, fills it, registers the match via makeRoom and is told its color,
the room id and the opponent's name. -/
def handleWaitRecv (uid username : String) (m : Match) : WaitResult :=
  if m.gameId = "" then
    WaitResult.cancelledClose "You can\x27t play against yourself"
  else
    if m.white.id ≠ "" then
      let m2 := { m with black := { id := uid, username := username } }
      WaitResult.matched { color := "black", roomId := m.gameId, opp := m.white.username } m2
    else
      let m2 := { m with white := { id := uid, username := username } }
      WaitResult.matched { color := "white", roomId := m.gameId, opp := m.black.username } m2

/-! ## Room state and the move event (src/room.go, hostGame) -/

/-- A player's countdown clock: a resettable one-shot timer, either stopped
or running with a remaining duration (`time.Timer` as the room uses it via
`Reset`/`Stop`). -/
inductive ClockSt
  | stopped
  | running (d : Int)
deriving DecidableEq, Repr

/-- The fields of `player` (src/player.go) that the room's move and rematch
handlers read and write. `timeLeft` and `lastMove` are nanosecond counts;
`lastMove = 0` models the zero `time.Time` (Go's `IsZero`). `sendMoveLen`
is the current length of the player's outbound move queue, whose capacity
is 2. -/
structure PlayerSt where
  userId : String
  color : String
  timeLeft : Int
  lastMove : Int
  clock : ClockSt
  sendMoveLen : Nat
deriving DecidableEq, Repr

/-- Capacity of a player's outbound move queue: one slot for a move, one for
a clock-only update (src/player.go, `make(chan []byte, 2)`). -/
def sendMoveCap : Nat := 2

/-- `Duration.Milliseconds()`: Go's integer division truncating toward zero. -/
def msOf (d : Int) : Int := Int.tdiv d 1000000

/-- A decoded inbound move event: the mover's color tag ("w" or "b") and the
JSON payload of the move, `none` when `json.Unmarshal` fails
(src/room.go, `move`). The payload is modelled as a field map with integer
values, which is all the room adds to it. -/
structure MoveMsg where
  color : String
  payload : Option (List (String × Int))
deriving DecidableEq, Repr

/-- Outcome of one move event in the room loop: `skip` breaks out of the
select case keeping the mutations made so far, `halt` returns from hostGame
(terminating the room), `delivered` continues the loop after pushing the
decorated move to the opponent and the clock-only update to the mover.
Every constructor carries the resulting white and black player states. -/
inductive MoveOutcome
  | skip (white black : PlayerSt)
  | halt (white black : PlayerSt)
  | delivered (white black : PlayerSt) (toOpp toTurn : List (String × Int))
deriving DecidableEq, Repr

/-- The clock bookkeeping of the move case (src/room.go lines 251-265):
elapsed time since the opponent's last move is charged only when both
players have a recorded last move; the opponent's clock is reset with its
remaining time only when the opponent has a recorded last move; the mover's
last-move timestamp is set to now, its remaining time decreased by the
elapsed time, and its clock stopped. Returns (mover, opponent). -/
def moveUpdate (turn opp : PlayerSt) (now : Int) : PlayerSt × PlayerSt :=
  let elapsed : Int := if turn.lastMove ≠ 0 ∧ opp.lastMove ≠ 0 then now - opp.lastMove else 0
  let opp2 := if opp.lastMove ≠ 0 then { opp with clock := ClockSt.running opp.timeLeft } else opp
  let turn2 := { turn with
    lastMove := now
    timeLeft := turn.timeLeft - elapsed
    clock := ClockSt.stopped }
  (turn2, opp2)

/-- Reassemble (white, black) from (mover, opponent) given who moved. -/
def packByTurn (isWhiteTurn : Bool) (turn opp : PlayerSt) : PlayerSt × PlayerSt :=
  if isWhiteTurn then (turn, opp) else (opp, turn)

/-- The delivery half of the move case (src/room.go lines 267-300): decode
the payload (`break` on failure, mutations kept), decorate it with the
mover's and opponent's remaining milliseconds, push it non-blockingly to
the opponent's move queue (`return` when full), then push the clock-only
update to the mover's own queue (`return` when full). -/
def moveFinish (isWhiteTurn : Bool) (turn opp : PlayerSt)
    (payload : Option (List (String × Int))) : MoveOutcome :=
  match payload with
  | none =>
    let wb := packByTurn isWhiteTurn turn opp
    MoveOutcome.skip wb.1 wb.2
  | some data =>
    let decorated := data ++ [("oppClock", msOf turn.timeLeft), ("clock", msOf opp.timeLeft)]
    if opp.sendMoveLen < sendMoveCap then
      let opp2 := { opp with sendMoveLen := opp.sendMoveLen + 1 }
      let clockMsg := [("oppClock", msOf opp2.timeLeft), ("clock", msOf turn.timeLeft)]
      if turn.sendMoveLen < sendMoveCap then
        let turn2 := { turn with sendMoveLen := turn.sendMoveLen + 1 }
        let wb := packByTurn isWhiteTurn turn2 opp2
        MoveOutcome.delivered wb.1 wb.2 decorated clockMsg
      else
        let wb := packByTurn isWhiteTurn turn opp2
        MoveOutcome.halt wb.1 wb.2
    else
      let wb := packByTurn isWhiteTurn turn opp
      MoveOutcome.halt wb.1 wb.2

/-- The full move case of hostGame's select (src/room.go lines 236-300):
resolve mover and opponent from the move's color tag (an invalid tag breaks
out of the select case with no mutation), apply the clock bookkeeping, then
deliver. -/
def handleMove (white black : PlayerSt) (mv : MoveMsg) (now : Int) : MoveOutcome :=
  match mv.color with
  | "w" =>
    let tp := moveUpdate white black now
    moveFinish true tp.1 tp.2 mv.payload
  | "b" =>
    let tp := moveUpdate black white now
    moveFinish false tp.1 tp.2 mv.payload
  | _ => MoveOutcome.skip white black

/-- Resulting white state of a move outcome. -/
def MoveOutcome.whiteSt : MoveOutcome → PlayerSt
  | .skip w _ => w
  | .halt w _ => w
  | .delivered w _ _ _ => w

/-- Resulting black state of a move outcome. -/
def MoveOutcome.blackSt : MoveOutcome → PlayerSt
  | .skip _ b => b
  | .halt _ b => b
  | .delivered _ b _ _ => b

/-- Whether the outcome is the `return` path terminating hostGame. -/
def MoveOutcome.isHalt : MoveOutcome → Bool
  | .halt _ _ => true
  | _ => false

/-! ## Rematch accept (src/room.go lines 370-388 and switchColors) -/

/-- switchColors (src/room.go lines 394-398): the white player's color field
becomes "black", the black player's becomes "white", and the pair is
returned swapped, so the previous black occupies the white slot. -/
def switchColors (white black : PlayerSt) : PlayerSt × PlayerSt :=
  (({ black with color := "white" }), ({ white with color := "black" }))

/-- Outcome of the rematch-accept case: `halted` is the `return` on an
invalid color (terminating the room); `ok` carries the color of the player
the acceptance signal is sent to, and the new white and black states. -/
inductive RematchResult
  | halted
  | ok (signalTo : String) (white black : PlayerSt)
deriving DecidableEq, Repr

/-- The rematch-accept case of hostGame's select (src/room.go lines
370-388): the acceptance signal goes to the accepter's opponent; an invalid
color returns from hostGame; then colors are switched and both players'
remaining times are reset to the room's original duration with their
last-move timestamps cleared. -/
def handleAcceptRematch (playerColor : String) (white black : PlayerSt)
    (duration : Int) : RematchResult :=
  let signalTo : Option String :=
    match playerColor with
    | "white" => some "black"
    | "black" => some "white"
    | _ => none
  match signalTo with
  | none => RematchResult.halted
  | some target =>
    let wb := switchColors white black
    RematchResult.ok target
      { wb.1 with timeLeft := duration, lastMove := 0 }
      { wb.2 with timeLeft := duration, lastMove := 0 }

/-! ## Terminal cleanup of hostGame (src/room.go lines 207-217) -/

/-- A primitive action of the room's terminal cleanup. -/
inductive ExitAction
  | closeMoveQueue (color : String)
  | stopClock (color : String)
  | runCleanup
deriving DecidableEq, Repr

/-- stopTimers (src/room.go lines 198-205): stop white's clock when present,
then black's. The booleans model the nil checks. -/
def stopTimers (whiteClock blackClock : Bool) : List ExitAction :=
  (if whiteClock then [ExitAction.stopClock "white"] else [])
    ++ (if blackClock then [ExitAction.stopClock "black"] else [])

/-- Body of the second deferred function of hostGame (src/room.go lines
209-217): close white's move queue when present, close black's move queue
when present, then stopTimers. -/
def closeQueuesStopTimers (whiteQ blackQ whiteClock blackClock : Bool) : List ExitAction :=
  (if whiteQ then [ExitAction.closeMoveQueue "white"] else [])
    ++ (if blackQ then [ExitAction.closeMoveQueue "black"] else [])
    ++ stopTimers whiteClock blackClock

/-- The deferred functions of hostGame in registration order: first
`defer r.cleanup()`, then the close-queues-and-stop-timers function
(src/room.go lines 208-217). -/
def hostGameDefers (whiteQ blackQ whiteClock blackClock : Bool) : List (List ExitAction) :=
  [[ExitAction.runCleanup], closeQueuesStopTimers whiteQ blackQ whiteClock blackClock]

/-- Go defer semantics: deferred functions run in reverse registration order
when the function returns, on every return path. -/
def runDefers (ds : List (List ExitAction)) : List ExitAction :=
  ds.reverse.flatten

/-- The action sequence executed on any exit of hostGame's event loop. -/
def hostGameExit (whiteQ blackQ whiteClock blackClock : Bool) : List ExitAction :=
  runDefers (hostGameDefers whiteQ blackQ whiteClock blackClock)

/-! ## Quick-match pairing (src/main.go, newMatch) -/

/-- The outcome of the blocking select in the waiting branch of newMatch:
either a pairing arrives on the rendezvous channel or the 5-second deadline
fires. -/
inductive WaitOutcome
  | paired (m : Match)
  | timeout
deriving DecidableEq, Repr

/-- One atomic action of a newMatch execution, in program order. `lockA` and
`unlockA` are the coarse mutex operations; `chanSend`/`chanRecv` are the
blocking send/receive on the per-time-control rendezvous channel (which is
unbuffered); `deadlineRecv` is the receive from the deadline timer;
`setWaiting`/`clearWaiting` are the writes to the shared waiting slot;
`makeRoomA` is the registration of the completed match. -/
inductive NMAction
  | lockA
  | unlockA
  | setWaiting (u : User)
  | clearWaiting
  | chanSend (m : Match)
  | chanRecv (m : Match)
  | deadlineRecv
  | makeRoomA (m : Match)
deriving DecidableEq, Repr

/-- The observable behaviour of one newMatch call: the values returned to
the caller (`roomId`, `color`, `opp`), the matches sent on the rendezvous
channel, the matches registered via makeRoom, the full action trace, and
whether the fuel bound was hit. -/
structure NMExec where
  roomId : String
  color : String
  opp : String
  sent : List Match
  made : List Match
  trace : List NMAction
  diverged : Bool
deriving DecidableEq, Repr

/-- newMatch (src/main.go lines 90-143), embedded with an explicit fuel
bound on the self-cancel recursion and the blocking select's outcome passed
as a parameter. Branches, in source order: if nobody is waiting, lock,
record the caller in the waiting slot, unlock, then block on the rendezvous
channel against the 5 s deadline — a pairing with an empty game id means
the wait was cancelled (empty return); a real pairing is completed with the
caller as white and registered under the mutex via makeRoom; on deadline
the slot is cleared under the mutex and the empty result returned. If the
waiting identity equals the caller, the empty sentinel is sent on the
rendezvous channel (while the mutex is held), the slot is cleared, the
mutex released and the call retried. Otherwise a fresh match id is
generated, the pairing with the caller as black is sent on the rendezvous
channel (while the mutex is held), the slot cleared, the mutex released,
and "black" plus the match id returned. -/
def newMatch : Nat → String → String → User → WaitOutcome → String → NMExec
  | 0, _, _, _, _, _ =>
    { roomId := "", color := "", opp := "", sent := [], made := [], trace := [],
      diverged := true }
  | fuel + 1, uid, username, waiting, outcome, freshId =>
    if waiting.id = "" then
      let caller : User := { id := uid, username := username }
      let pre : List NMAction := [NMAction.lockA, NMAction.setWaiting caller, NMAction.unlockA]
      match outcome with
      | WaitOutcome.paired m =>
        if m.gameId = "" then
          { roomId := "", color := "", opp := "", sent := [], made := [],
            trace := pre ++ [NMAction.chanRecv m], diverged := false }
        else
          let m2 := { m with white := caller }
          { roomId := m2.gameId, color := "white", opp := m2.black.username,
            sent := [], made := [m2],
            trace := pre ++ [NMAction.chanRecv m, NMAction.lockA, NMAction.makeRoomA m2,
              NMAction.unlockA],
            diverged := false }
      | WaitOutcome.timeout =>
        { roomId := "", color := "", opp := "", sent := [], made := [],
          trace := pre ++ [NMAction.deadlineRecv, NMAction.lockA, NMAction.clearWaiting,
            NMAction.unlockA],
          diverged := false }
    else
      if waiting.id = uid then
        let retried := newMatch fuel uid username emptyUser outcome freshId
        { retried with
          sent := emptyMatch :: retried.sent,
          trace := [NMAction.lockA, NMAction.chanSend emptyMatch, NMAction.clearWaiting,
            NMAction.unlockA] ++ retried.trace }
      else
        let caller : User := { id := uid, username := username }
        let m : Match := { gameId := freshId, white := emptyUser, black := caller }
        { roomId := freshId, color := "black", opp := waiting.username,
          sent := [m], made := [],
          trace := [NMAction.lockA, NMAction.chanSend m, NMAction.clearWaiting,
            NMAction.unlockA],
          diverged := false }

/-- Annotate each action of a trace with whether the coarse mutex is held
when the action executes, given the initial held state. -/
def annotateLock : List NMAction → Bool → List (NMAction × Bool)
  | [], _ => []
  | a :: rest, held =>
    let next :=
      match a with
      | NMAction.lockA => true
      | NMAction.unlockA => false
      | _ => held
    (a, held) :: annotateLock rest next

/-- Replay the waiting-slot writes of a trace over an initial slot value. -/
def runSlot (w : User) (tr : List NMAction) : User :=
  tr.foldl
    (fun acc a =>
      match a with
      | NMAction.setWaiting u => u
      | NMAction.clearWaiting => emptyUser
      | _ => acc)
    w

/-- Number of enrollments into the waiting slot performed by a trace. -/
def countSetWaiting (tr : List NMAction) : Nat :=
  tr.countP
    (fun a =>
      match a with
      | NMAction.setWaiting _ => true
      | _ => false)

/-- A concrete user and pairing used by the quick-match witnesses. -/
def userB : User := { id := "B", username := "bob" }

/-- A concrete pairing carrying userB as black, as sent to a waiting host. -/
def pairedWithB : Match := { gameId := "g1", white := emptyUser, black := userB }

/-! ## Presence aggregator (src/livedata.go, livedataHub.run) -/

/-- The real-time snapshot broadcast to subscribers (src/livedata.go,
`livedata`). -/
structure Livedata where
  players : Int
  games : Int
deriving DecidableEq, Repr

/-- The aggregator state (src/livedata.go, `livedataHub`): the online map is
modelled as an association list from subscriber uid to the current length
of that subscriber's bounded send queue, plus the playing counter. -/
structure LivedataHub where
  online : List (String × Nat)
  playing : Int
deriving DecidableEq, Repr

/-- Capacity of a subscriber's send queue (src/livedata.go,
`make(chan livedata, 256)`). -/
def livedataCap : Nat := 256

/-- The four events of the aggregator loop's select: a subscriber registers
(with a fresh empty queue), a subscriber unregisters, a player joins an
active game, a game finishes (both participants leave). -/
inductive LDEvent
  | register (uid : String)
  | unregister (uid : String)
  | startGame
  | finishGame
deriving DecidableEq, Repr

/-- Go map insert for the online association list: replace the entry when
the key is present, append otherwise. -/
def ldInsert (online : List (String × Nat)) (uid : String) (q : Nat) :
    List (String × Nat) :=
  if online.any (fun p => p.1 = uid) then
    online.map (fun p => if p.1 = uid then (uid, q) else p)
  else
    online ++ [(uid, q)]

/-- The event half of one iteration of run (src/livedata.go lines 88-100):
mutate the state and report the uid whose queue was closed by an
unregister, if any. -/
def ldApply (hub : LivedataHub) : LDEvent → LivedataHub × List String
  | LDEvent.register uid => ({ hub with online := ldInsert hub.online uid 0 }, [])
  | LDEvent.unregister uid =>
    if hub.online.any (fun p => p.1 = uid) then
      ({ hub with online := hub.online.filter (fun p => ¬ p.1 = uid) }, [uid])
    else
      (hub, [])
  | LDEvent.startGame => ({ hub with playing := hub.playing + 1 }, [])
  | LDEvent.finishGame => ({ hub with playing := hub.playing - 2 }, [])

/-- The broadcast half of one iteration of run (src/livedata.go lines
107-114): for each subscriber, push the snapshot non-blockingly; a full
queue causes that subscriber to be closed and removed. Returns the
remaining subscribers (queues grown by one), the uids dropped for
saturation, and the deliveries made. -/
def ldBroadcast (info : Livedata) :
    List (String × Nat) → List (String × Nat) × List String × List (String × Livedata)
  | [] => ([], [], [])
  | (uid, q) :: rest =>
    let acc := ldBroadcast info rest
    if q < livedataCap then
      ((uid, q + 1) :: acc.1, acc.2.1, (uid, info) :: acc.2.2)
    else
      (acc.1, uid :: acc.2.1, acc.2.2)

/-- The observable result of one aggregator iteration. -/
structure LDStepOut where
  hub : LivedataHub
  info : Livedata
  deliveries : List (String × Livedata)
  dropped : List String
  closed : List String
deriving DecidableEq, Repr

/-- One full iteration of the aggregator loop (src/livedata.go lines
86-116): apply the event, recompute the snapshot as
players = subscriber-count + playing and games = playing / 2 (Go integer
division), then broadcast it to every subscriber. -/
def livedataHubRun (hub : LivedataHub) (ev : LDEvent) : LDStepOut :=
  let applied := ldApply hub ev
  let h1 := applied.1
  let info : Livedata :=
    { players := Int.ofNat h1.online.length + h1.playing
      games := Int.tdiv h1.playing 2 }
  let bc := ldBroadcast info h1.online
  { hub := { online := bc.1, playing := h1.playing }
    info := info
    deliveries := bc.2.2
    dropped := bc.2.1
    closed := applied.2 }

/-! ## Claim theorems (chat rewrite, invite self-join) -/

/-- C10: for every chat message delivered by a player's outbound task, the
`from` field is rewritten to "you" exactly when the message's sender id
equals the receiving player's own user id and the sender's username is the
default username "mistery" (text and sender id are preserved); in every
other case the message is delivered unchanged, and the whole batch of one
tick is processed message by message under this same rule. -/
theorem C10_chat_from_rewrite (pUserId : String) (head : ChatMsg) (queued : List ChatMsg) :
    writePumpChatBatch pUserId head queued = (head :: queued).map (rewriteFrom pUserId)
    ∧ (∀ m : ChatMsg, m.userId = pUserId → m.username = DEFAULT_USERNAME →
        rewriteFrom pUserId m = { m with username := "you" })
    ∧ (∀ m : ChatMsg, ¬ (m.userId = pUserId ∧ m.username = DEFAULT_USERNAME) →
        rewriteFrom pUserId m = m) := by
  refine ⟨rfl, ?_, ?_⟩
  · intro m h1 h2
    simp [rewriteFrom, h1, h2]
  · intro m h
    simp only [rewriteFrom, if_neg h]

/-- Witness for C10 at a concrete message: the condition holds and the
`from` field becomes "you". -/
theorem C10_chat_from_rewrite_witness :
    rewriteFrom "u1" { text := "hi", username := "mistery", userId := "u1" }
      = { text := "hi", username := "you", userId := "u1" } :=
  (C10_chat_from_rewrite "u1" { text := "hi", username := "mistery", userId := "u1" } []).2.1
    { text := "hi", username := "mistery", userId := "u1" } rfl rfl

/-- C7: joining an invite whose host id equals the joiner's own id produces
no match: the empty sentinel match is pushed through the invite's pairing
channel, and the host's pending wait, on receiving that sentinel, reports
the cancellation close rather than a real pairing. -/
theorem C7_self_join_cancelled (uid username freshId : String) (host : User) (coin : Nat)
    (h : host.id = uid) :
    handleJoinFound uid username host freshId coin = JoinResult.cancelled emptyMatch
    ∧ handleWaitRecv host.id host.username emptyMatch
        = WaitResult.cancelledClose "You can\x27t play against yourself" := by
  constructor
  · simp [handleJoinFound, h]
  · simp [handleWaitRecv, emptyMatch]

/-- Witness for C7 at a concrete host joining their own invite. -/
theorem C7_self_join_cancelled_witness :
    handleJoinFound "h1" "alice" { id := "h1", username := "alice" } "g9" 0
        = JoinResult.cancelled emptyMatch
    ∧ handleWaitRecv "h1" "alice" emptyMatch
        = WaitResult.cancelledClose "You can\x27t play against yourself" :=
  C7_self_join_cancelled "h1" "alice" "g9" { id := "h1", username := "alice" } 0 rfl

/-! ## Claim theorems about the room loop -/

/-- moveUpdate never touches the opponent's queue length. -/
theorem moveUpdate_snd_sendMoveLen (t o : PlayerSt) (now : Int) :
    (moveUpdate t o now).2.sendMoveLen = o.sendMoveLen := by
  simp only [moveUpdate]
  split <;> rfl

/-- moveFinish only ever changes queue lengths: clocks and remaining times
of the resulting white and black states are those of the mover/opponent
states it was given. -/
theorem moveFinish_clock_timeLeft (b : Bool) (t o : PlayerSt)
    (p : Option (List (String × Int))) :
    (moveFinish b t o p).whiteSt.clock = (packByTurn b t o).1.clock
    ∧ (moveFinish b t o p).whiteSt.timeLeft = (packByTurn b t o).1.timeLeft
    ∧ (moveFinish b t o p).blackSt.clock = (packByTurn b t o).2.clock
    ∧ (moveFinish b t o p).blackSt.timeLeft = (packByTurn b t o).2.timeLeft := by
  cases p <;> cases b <;>
    simp only [moveFinish, packByTurn, if_true, if_false, Bool.false_eq_true,
      MoveOutcome.whiteSt, MoveOutcome.blackSt] <;>
    (try split_ifs) <;>
    simp [MoveOutcome.whiteSt, MoveOutcome.blackSt]

/-- C1 counterexample: a concrete move event (white to move, black's
outbound move queue already holding 2 items, i.e. full) on which the room
loop takes the `return` path — the Room terminates instead of continuing,
contradicting the claim that a full queue is not fatal. -/
theorem C1_counterexample :
    (handleMove
        { userId := "u1", color := "white", timeLeft := 1000, lastMove := 5,
          clock := ClockSt.stopped, sendMoveLen := 0 }
        { userId := "u2", color := "black", timeLeft := 1000, lastMove := 7,
          clock := ClockSt.stopped, sendMoveLen := 2 }
        { color := "w", payload := some [] } 12).isHalt = true := by
  decide

/-- C1 amended: when the receiving side's outbound move queue is full, the
non-blocking push fails and the Room event loop returns — the room
terminates (running its deferred cleanup) rather than continuing; the push
itself never blocks the loop. -/
theorem C1_full_queue_halts (white black : PlayerSt) (d : List (String × Int)) (now : Int) :
    (sendMoveCap ≤ black.sendMoveLen →
        (handleMove white black { color := "w", payload := some d } now).isHalt = true)
    ∧ (sendMoveCap ≤ white.sendMoveLen →
        (handleMove white black { color := "b", payload := some d } now).isHalt = true) := by
  constructor
  · intro h
    have hlen := moveUpdate_snd_sendMoveLen white black now
    simp only [handleMove, moveFinish]
    rw [if_neg]
    · rfl
    · omega
  · intro h
    have hlen := moveUpdate_snd_sendMoveLen black white now
    simp only [handleMove, moveFinish]
    rw [if_neg]
    · rfl
    · omega

/-- Witness for C1's amended theorem at a concrete full-queue state. -/
theorem C1_full_queue_halts_witness :
    sendMoveCap ≤ 2
    ∧ (handleMove
        { userId := "a", color := "white", timeLeft := 9, lastMove := 1,
          clock := ClockSt.stopped, sendMoveLen := 0 }
        { userId := "b", color := "black", timeLeft := 9, lastMove := 2,
          clock := ClockSt.stopped, sendMoveLen := 2 }
        { color := "w", payload := some [("x", 1)] } 5).isHalt = true :=
  ⟨by decide,
    (C1_full_queue_halts
      { userId := "a", color := "white", timeLeft := 9, lastMove := 1,
        clock := ClockSt.stopped, sendMoveLen := 0 }
      { userId := "b", color := "black", timeLeft := 9, lastMove := 2,
        clock := ClockSt.stopped, sendMoveLen := 2 }
      [("x", 1)] 5).1 (by decide)⟩

/-- C3 counterexample: the second move of the game (white has a recorded
last move at 5, black none, black moves at time 12). The claim requires
black's remaining time to drop by the elapsed 7; the code leaves it
unchanged at 1000 because the mover itself has no recorded last move yet. -/
theorem C3_counterexample :
    (handleMove
        { userId := "u1", color := "white", timeLeft := 1000, lastMove := 5,
          clock := ClockSt.stopped, sendMoveLen := 0 }
        { userId := "u2", color := "black", timeLeft := 1000, lastMove := 0,
          clock := ClockSt.stopped, sendMoveLen := 0 }
        { color := "b", payload := some [] } 12).blackSt.timeLeft = 1000
    ∧ (1000 : Int) ≠ 1000 - (12 - 5) := by
  constructor
  · decide
  · decide

/-- C3 amended: on every move processed by the Room event loop, the mover's
clock is stopped; the opponent's countdown clock is restarted with the
opponent's remaining time whenever the opponent has a recorded last move;
and the mover's remaining time is decreased by exactly the wall-clock time
elapsed since the opponent's last recorded move only when BOTH players have
recorded last moves — that is, the deduction is skipped on each player's
first move of a game (the game's first two moves, and the first two moves
after a rematch reset), not only on the very first move. -/
theorem C3_move_clock_update (white black : PlayerSt) (p : Option (List (String × Int)))
    (now : Int) :
    ((handleMove white black { color := "w", payload := p } now).whiteSt.clock
        = ClockSt.stopped
      ∧ (black.lastMove ≠ 0 →
          (handleMove white black { color := "w", payload := p } now).blackSt.clock
            = ClockSt.running black.timeLeft)
      ∧ (white.lastMove ≠ 0 → black.lastMove ≠ 0 →
          (handleMove white black { color := "w", payload := p } now).whiteSt.timeLeft
            = white.timeLeft - (now - black.lastMove))
      ∧ (white.lastMove = 0 ∨ black.lastMove = 0 →
          (handleMove white black { color := "w", payload := p } now).whiteSt.timeLeft
            = white.timeLeft))
    ∧ ((handleMove white black { color := "b", payload := p } now).blackSt.clock
        = ClockSt.stopped
      ∧ (white.lastMove ≠ 0 →
          (handleMove white black { color := "b", payload := p } now).whiteSt.clock
            = ClockSt.running white.timeLeft)
      ∧ (black.lastMove ≠ 0 → white.lastMove ≠ 0 →
          (handleMove white black { color := "b", payload := p } now).blackSt.timeLeft
            = black.timeLeft - (now - white.lastMove))
      ∧ (black.lastMove = 0 ∨ white.lastMove = 0 →
          (handleMove white black { color := "b", payload := p } now).blackSt.timeLeft
            = black.timeLeft)) := by
  have hw := moveFinish_clock_timeLeft true (moveUpdate white black now).1
    (moveUpdate white black now).2 p
  have hb := moveFinish_clock_timeLeft false (moveUpdate black white now).1
    (moveUpdate black white now).2 p
  simp only [handleMove] at *
  refine ⟨⟨?_, ?_, ?_, ?_⟩, ⟨?_, ?_, ?_, ?_⟩⟩
  · rw [hw.1]; simp [packByTurn, moveUpdate]
  · intro h; rw [hw.2.2.1]; simp [packByTurn, moveUpdate, h]
  · intro h1 h2; rw [hw.2.1]; simp [packByTurn, moveUpdate, h1, h2]
  · intro h; rw [hw.2.1]
    rcases h with h | h <;> simp [packByTurn, moveUpdate, h]
  · rw [hb.2.2.1]; simp [packByTurn, moveUpdate]
  · intro h; rw [hb.1]; simp [packByTurn, moveUpdate, h]
  · intro h1 h2; rw [hb.2.2.2]; simp [packByTurn, moveUpdate, h1, h2]
  · intro h; rw [hb.2.2.2]
    rcases h with h | h <;> simp [packByTurn, moveUpdate, h]

/-- Witness for C3's amended theorem on a mid-game move with both last-move
timestamps recorded. -/
theorem C3_move_clock_update_witness :
    (5 : Int) ≠ 0
    ∧ (handleMove
        { userId := "a", color := "white", timeLeft := 900, lastMove := 5,
          clock := ClockSt.stopped, sendMoveLen := 0 }
        { userId := "b", color := "black", timeLeft := 800, lastMove := 7,
          clock := ClockSt.running 800, sendMoveLen := 0 }
        { color := "w", payload := some [] } 12).whiteSt.timeLeft = 900 - (12 - 7) :=
  ⟨by decide,
    (C3_move_clock_update
      { userId := "a", color := "white", timeLeft := 900, lastMove := 5,
        clock := ClockSt.stopped, sendMoveLen := 0 }
      { userId := "b", color := "black", timeLeft := 800, lastMove := 7,
        clock := ClockSt.running 800, sendMoveLen := 0 }
      (some []) 12).1.2.2.1 (by decide) (by decide)⟩

/-- C2 counterexample: the white player ("u1") accepts the rematch, yet the
new white is the previous black ("u2"), not the accepter — refuting the
claim that the side which just accepted becomes the new white. -/
theorem C2_counterexample :
    handleAcceptRematch "white"
        { userId := "u1", color := "white", timeLeft := 77, lastMove := 9,
          clock := ClockSt.stopped, sendMoveLen := 0 }
        { userId := "u2", color := "black", timeLeft := 55, lastMove := 8,
          clock := ClockSt.stopped, sendMoveLen := 0 } 300
      = RematchResult.ok "black"
          { userId := "u2", color := "white", timeLeft := 300, lastMove := 0,
            clock := ClockSt.stopped, sendMoveLen := 0 }
          { userId := "u1", color := "black", timeLeft := 300, lastMove := 0,
            clock := ClockSt.stopped, sendMoveLen := 0 }
    ∧ ("u2" : String) ≠ "u1" := by
  constructor
  · decide
  · decide

/-- C2 amended: on every rematch-accept event with a valid color, the
acceptance signal is sent to the accepter's opponent, and the previous
black becomes the new white (and the previous white the new black)
regardless of which side accepted; both players' remaining times are reset
to the original match duration with their last-move timestamps cleared. -/
theorem C2_rematch_swap (playerColor : String) (white black : PlayerSt) (duration : Int)
    (h : playerColor = "white" ∨ playerColor = "black") :
    ∃ target w2 b2,
      handleAcceptRematch playerColor white black duration = RematchResult.ok target w2 b2
      ∧ w2.userId = black.userId ∧ b2.userId = white.userId
      ∧ w2.color = "white" ∧ b2.color = "black"
      ∧ w2.timeLeft = duration ∧ b2.timeLeft = duration
      ∧ w2.lastMove = 0 ∧ b2.lastMove = 0
      ∧ target = (if playerColor = "white" then "black" else "white") := by
  rcases h with h | h <;> subst h <;>
    exact ⟨_, _, _, rfl, rfl, rfl, rfl, rfl, rfl, rfl, rfl, rfl, by decide⟩

/-- Witness for C2's amended theorem with black accepting. -/
theorem C2_rematch_swap_witness :
    (("black" : String) = "white" ∨ ("black" : String) = "black")
    ∧ ∃ target w2 b2,
        handleAcceptRematch "black"
            { userId := "u1", color := "white", timeLeft := 1, lastMove := 2,
              clock := ClockSt.stopped, sendMoveLen := 0 }
            { userId := "u2", color := "black", timeLeft := 3, lastMove := 4,
              clock := ClockSt.stopped, sendMoveLen := 0 } 60 = RematchResult.ok target w2 b2
        ∧ w2.userId = "u2" ∧ b2.userId = "u1"
        ∧ w2.color = "white" ∧ b2.color = "black"
        ∧ w2.timeLeft = 60 ∧ b2.timeLeft = 60
        ∧ w2.lastMove = 0 ∧ b2.lastMove = 0
        ∧ target = (if ("black" : String) = "white" then "black" else "white") :=
  ⟨Or.inr rfl,
    C2_rematch_swap "black"
      { userId := "u1", color := "white", timeLeft := 1, lastMove := 2,
        clock := ClockSt.stopped, sendMoveLen := 0 }
      { userId := "u2", color := "black", timeLeft := 3, lastMove := 4,
        clock := ClockSt.stopped, sendMoveLen := 0 } 60 (Or.inr rfl)⟩

/-- C8: on every exit of the Room event loop the deferred functions run in
reverse registration order, so whatever the terminal path, every present
outbound move queue is closed and every present clock stopped strictly
before the externally supplied cleanup callback, which runs exactly once,
as the last action. -/
theorem C8_cleanup_order (wq bq wc bc : Bool) :
    (hostGameExit wq bq wc bc).getLast? = some ExitAction.runCleanup
    ∧ (hostGameExit wq bq wc bc).count ExitAction.runCleanup = 1
    ∧ (wq = true → ExitAction.closeMoveQueue "white" ∈ (hostGameExit wq bq wc bc).dropLast)
    ∧ (bq = true → ExitAction.closeMoveQueue "black" ∈ (hostGameExit wq bq wc bc).dropLast)
    ∧ (wc = true → ExitAction.stopClock "white" ∈ (hostGameExit wq bq wc bc).dropLast)
    ∧ (bc = true → ExitAction.stopClock "black" ∈ (hostGameExit wq bq wc bc).dropLast) := by
  cases wq <;> cases bq <;> cases wc <;> cases bc <;> decide

/-- Witness for C8 with both queues and both clocks present. -/
theorem C8_cleanup_order_witness :
    ExitAction.closeMoveQueue "white" ∈ (hostGameExit true true true true).dropLast :=
  (C8_cleanup_order true true true true).2.2.1 rfl

/-! ## Claim theorems about quick-match pairing -/

/-- C4 counterexample: a concrete newMatch execution (caller "B" finds "A"
waiting) whose trace performs the blocking send on the rendezvous channel
while the coarse mutex is held, refuting the claim that the mutex is never
held across a blocking channel send or receive on that channel. -/
theorem C4_counterexample :
    (NMAction.chanSend
        { gameId := "g1", white := emptyUser, black := { id := "B", username := "bob" } },
      true)
      ∈ annotateLock
          (newMatch 2 "B" "bob" { id := "A", username := "alice" }
            WaitOutcome.timeout "g1").trace
          false := by
  decide

/-- C4 amended: in every newMatch execution the coarse mutex is never held
while the operation performs a blocking RECEIVE — neither the rendezvous
receive nor the deadline receive executes with the mutex held — but the
blocking sends on the unbuffered rendezvous channel (both the pairing send
and the self-cancel sentinel send) are always performed while the mutex is
held. -/
theorem C4_lock_discipline (fuel : Nat) (uid username : String) (w : User)
    (outcome : WaitOutcome) (freshId : String) :
    (∀ m held, (NMAction.chanRecv m, held)
        ∈ annotateLock (newMatch fuel uid username w outcome freshId).trace false →
          held = false)
    ∧ (∀ held, (NMAction.deadlineRecv, held)
        ∈ annotateLock (newMatch fuel uid username w outcome freshId).trace false →
          held = false)
    ∧ (∀ m held, (NMAction.chanSend m, held)
        ∈ annotateLock (newMatch fuel uid username w outcome freshId).trace false →
          held = true) := by
  induction fuel generalizing w with
  | zero => simp [newMatch, annotateLock]
  | succ n ih =>
    by_cases hw : w.id = ""
    · cases outcome with
      | paired m =>
        by_cases hg : m.gameId = "" <;>
          simp [newMatch, hw, hg, annotateLock]
      | timeout =>
        simp [newMatch, hw, annotateLock]
    · by_cases hu : w.id = uid
      · have hrec := ih emptyUser
        simp only [newMatch, if_neg hw, if_pos hu, List.cons_append, List.nil_append,
          annotateLock] at *
        refine ⟨?_, ?_, ?_⟩
        · intro m held hmem
          simp only [List.mem_cons] at hmem
          rcases hmem with h | h | h | h | h <;>
            first
            | (exfalso; exact absurd h (by simp))
            | exact hrec.1 m held h
        · intro held hmem
          simp only [List.mem_cons] at hmem
          rcases hmem with h | h | h | h | h <;>
            first
            | (exfalso; exact absurd h (by simp))
            | exact hrec.2.1 held h
        · intro m held hmem
          simp only [List.mem_cons] at hmem
          rcases hmem with h | h | h | h | h <;>
            first
            | (simp only [Prod.mk.injEq] at h; exact h.2)
            | (exfalso; exact absurd h (by simp))
            | exact hrec.2.2 m held h
      · simp [newMatch, hw, hu, annotateLock]

/-- Witness for C4's amended theorem: in a concrete paired execution the
rendezvous receive runs without the mutex held. -/
theorem C4_lock_discipline_witness :
    ((NMAction.chanRecv pairedWithB, false)
      ∈ annotateLock
          (newMatch 2 "A" "alice" emptyUser (WaitOutcome.paired pairedWithB) "g2").trace
          false)
    ∧ (false = false) :=
  ⟨by decide,
    (C4_lock_discipline 2 "A" "alice" emptyUser (WaitOutcome.paired pairedWithB) "g2").1
      pairedWithB false (by decide)⟩

/-- C5: when identity A is waiting for a time control and a distinct
identity B requests quick-match for the same time control before the
deadline, B immediately gets color "black", the freshly generated match id,
and A's name, sending A the pairing that carries that same id; A's blocked
call, resuming on that pairing, gets color "white", the same match id and
B's name, and registers the match with A as white and B as black. A waiter
whose 5-second deadline fires instead returns the empty "no match" result
and leaves the waiting slot cleared. -/
theorem C5_quick_match_pairing (A B : User) (freshId freshId2 : String)
    (ocB : WaitOutcome) (u3 un3 : String)
    (hA : A.id ≠ "") (hAB : A.id ≠ B.id) (hfid : freshId ≠ "") :
    ((newMatch 2 B.id B.username A ocB freshId).color = "black"
      ∧ (newMatch 2 B.id B.username A ocB freshId).roomId = freshId
      ∧ (newMatch 2 B.id B.username A ocB freshId).opp = A.username
      ∧ (newMatch 2 B.id B.username A ocB freshId).sent
          = [{ gameId := freshId, white := emptyUser, black := B }])
    ∧ ((newMatch 2 A.id A.username emptyUser
          (WaitOutcome.paired { gameId := freshId, white := emptyUser, black := B })
          freshId2).color = "white"
      ∧ (newMatch 2 A.id A.username emptyUser
          (WaitOutcome.paired { gameId := freshId, white := emptyUser, black := B })
          freshId2).roomId = freshId
      ∧ (newMatch 2 A.id A.username emptyUser
          (WaitOutcome.paired { gameId := freshId, white := emptyUser, black := B })
          freshId2).opp = B.username
      ∧ (newMatch 2 A.id A.username emptyUser
          (WaitOutcome.paired { gameId := freshId, white := emptyUser, black := B })
          freshId2).made = [{ gameId := freshId, white := A, black := B }])
    ∧ ((newMatch 2 u3 un3 emptyUser WaitOutcome.timeout freshId2).color = ""
      ∧ (newMatch 2 u3 un3 emptyUser WaitOutcome.timeout freshId2).roomId = ""
      ∧ runSlot emptyUser (newMatch 2 u3 un3 emptyUser WaitOutcome.timeout freshId2).trace
          = emptyUser) := by
  have hBA : ¬ A.id = B.id := hAB
  refine ⟨?_, ?_, ?_⟩
  · simp [newMatch, hA, hBA]
  · simp [newMatch, emptyUser, hfid]
  · simp [newMatch, emptyUser, runSlot]

/-- Witness for C5 at concrete identities. -/
theorem C5_quick_match_pairing_witness :
    (("a1" : String) ≠ "" ∧ ("a1" : String) ≠ "b1" ∧ ("g1" : String) ≠ "")
    ∧ (newMatch 2 "b1" "bob" { id := "a1", username := "alice" } WaitOutcome.timeout
        "g1").color = "black" :=
  ⟨⟨by decide, by decide, by decide⟩,
    (C5_quick_match_pairing { id := "a1", username := "alice" }
      { id := "b1", username := "bob" } "g1" "g2" WaitOutcome.timeout "c1" "carol"
      (by decide) (by decide) (by decide)).1.1⟩

/-- C6: a quick-match request from the identity already recorded as waiting
first sends the empty sentinel pairing on the rendezvous channel (cancelling
the stale wait) and clears the waiting slot, and the retried operation
terminates within fuel 2 — a single retry — re-enrolling the identity
exactly once, so it is never recorded as two simultaneous waiters. -/
theorem C6_self_cancel_bounded (uid username : String) (w : User) (outcome : WaitOutcome)
    (freshId : String) (hw : w.id = uid) (hu : uid ≠ "") :
    (newMatch 2 uid username w outcome freshId).diverged = false
    ∧ (newMatch 2 uid username w outcome freshId).sent.head? = some emptyMatch
    ∧ (newMatch 2 uid username w outcome freshId).trace.take 4
        = [NMAction.lockA, NMAction.chanSend emptyMatch, NMAction.clearWaiting,
          NMAction.unlockA]
    ∧ NMAction.setWaiting { id := uid, username := username }
        ∈ (newMatch 2 uid username w outcome freshId).trace
    ∧ countSetWaiting (newMatch 2 uid username w outcome freshId).trace = 1 := by
  have hw' : ¬ w.id = "" := by rw [hw]; exact hu
  cases outcome with
  | paired m =>
    by_cases hg : m.gameId = "" <;>
      simp [newMatch, hw, hw', hu, hg, emptyUser, countSetWaiting, List.countP_cons]
  | timeout =>
    simp [newMatch, hw, hw', hu, emptyUser, countSetWaiting, List.countP_cons]

/-- Witness for C6: a concrete duplicate request that cancels and re-enrolls. -/
theorem C6_self_cancel_bounded_witness :
    (({ id := "a1", username := "alice" } : User).id = "a1" ∧ ("a1" : String) ≠ "")
    ∧ (newMatch 2 "a1" "alice" { id := "a1", username := "alice" } WaitOutcome.timeout
        "g1").sent.head? = some emptyMatch :=
  ⟨⟨rfl, by decide⟩,
    (C6_self_cancel_bounded "a1" "alice" { id := "a1", username := "alice" }
      WaitOutcome.timeout "g1" rfl (by decide)).2.1⟩

/-- ldBroadcast keeps exactly the non-saturated subscribers (bumped by one),
delivers the snapshot to each of them, and drops exactly the saturated
ones. -/
theorem ldBroadcast_characterization (info : Livedata) (online : List (String × Nat)) :
    (ldBroadcast info online).1
        = (online.filter (fun p => p.2 < livedataCap)).map (fun p => (p.1, p.2 + 1))
    ∧ (ldBroadcast info online).2.2
        = (online.filter (fun p => p.2 < livedataCap)).map (fun p => (p.1, info))
    ∧ (ldBroadcast info online).2.1
        = (online.filter (fun p => ¬ p.2 < livedataCap)).map (fun p => p.1) := by
  induction online with
  | nil => exact ⟨rfl, rfl, rfl⟩
  | cons hd tl ih =>
    obtain ⟨h1, h2, h3⟩ := ih
    by_cases hq : hd.2 < livedataCap
    · simp [ldBroadcast, hq, h1, h2, h3, List.filter_cons]
    · have hq2 : livedataCap ≤ hd.2 := Nat.not_lt.mp hq
      simp [ldBroadcast, hq, hq2, h1, h2, h3, List.filter_cons]

/-- C9: after every presence-aggregator event the snapshot is recomputed as
online = subscriber-count + playing and games = playing / 2, and it is
pushed to every subscriber whose bounded queue has room, while every
subscriber whose queue is full is dropped (closed and removed from the
remaining subscriber set) instead of blocking the aggregator. -/
theorem C9_presence_broadcast (hub : LivedataHub) (ev : LDEvent) :
    (livedataHubRun hub ev).info.players
        = Int.ofNat (ldApply hub ev).1.online.length + (ldApply hub ev).1.playing
    ∧ (livedataHubRun hub ev).info.games = Int.tdiv (ldApply hub ev).1.playing 2
    ∧ (∀ p, p ∈ (ldApply hub ev).1.online → p.2 < livedataCap →
        (p.1, (livedataHubRun hub ev).info) ∈ (livedataHubRun hub ev).deliveries)
    ∧ (∀ p, p ∈ (ldApply hub ev).1.online → ¬ p.2 < livedataCap →
        p.1 ∈ (livedataHubRun hub ev).dropped)
    ∧ (livedataHubRun hub ev).hub.online
        = ((ldApply hub ev).1.online.filter (fun p => p.2 < livedataCap)).map
            (fun p => (p.1, p.2 + 1)) := by
  obtain ⟨h1, h2, h3⟩ := ldBroadcast_characterization (livedataHubRun hub ev).info
    (ldApply hub ev).1.online
  refine ⟨rfl, rfl, ?_, ?_, ?_⟩
  · intro p hp hq
    have : (livedataHubRun hub ev).deliveries
        = ((ldApply hub ev).1.online.filter (fun p => p.2 < livedataCap)).map
            (fun p => (p.1, (livedataHubRun hub ev).info)) := h2
    rw [this]
    exact List.mem_map_of_mem _ (List.mem_filter.mpr ⟨hp, by simpa using hq⟩)
  · intro p hp hq
    have : (livedataHubRun hub ev).dropped
        = ((ldApply hub ev).1.online.filter (fun p => ¬ p.2 < livedataCap)).map
            (fun p => p.1) := h3
    rw [this]
    exact List.mem_map_of_mem _ (List.mem_filter.mpr ⟨hp, by simpa using hq⟩)
  · exact h1

/-- Witness for C9 on a concrete hub with one fresh subscriber and one
saturated subscriber. -/
theorem C9_presence_broadcast_witness :
    (("s1", 0) ∈ (ldApply { online := [("s1", 0), ("s2", 256)], playing := 2 }
        LDEvent.startGame).1.online)
    ∧ ("s1", (livedataHubRun { online := [("s1", 0), ("s2", 256)], playing := 2 }
        LDEvent.startGame).info)
      ∈ (livedataHubRun { online := [("s1", 0), ("s2", 256)], playing := 2 }
        LDEvent.startGame).deliveries :=
  ⟨by decide,
    (C9_presence_broadcast { online := [("s1", 0), ("s2", 256)], playing := 2 }
      LDEvent.startGame).2.2.1 ("s1", 0) (by decide) (by decide)⟩
